import Mathlib

/-!
Shallow embedding of the scheduling and lifecycle controller in
`backend/task_manager/executor.py` (cloud_scheduler), together with
theorems settling the specification claims about it.

Conventions of the embedding:
* Kubernetes pod phases and the Task status enumeration are finite
  inductive types.
* Orchestrator RPC outcomes (read a pod, delete a deployment, exec into a
  pod, patch labels, create a job) are passed in as explicit inputs: a
  `found`/`notFound`/`apiError` result type, or a `Bool` meaning "the call
  did not raise".  A Python `ApiException` with `status == 404` is
  `notFound`; any other `ApiException` is `apiError`.
* `json.loads` of a template's `container_config` is modelled by an
  `Option Json` input over a small JSON value type: `none` means the
  string is not valid JSON (the call raises), `some v` the parsed value.
* Database rows are small structures; a `save(force_update=True)` is the
  returned row value.  Machine integers do not overflow in any code path
  modelled here, so counters are `Nat` (Python's `max(x - 1, 0)` is `Nat`
  subtraction).
-/

namespace CloudScheduler

/-- Kubernetes pod phase as consumed by the controller. -/
inductive Phase where
  | running
  | pending
  | succeeded
  | failed
  | unknown
deriving DecidableEq, Repr

/-- Task status enumeration (`TASK` in `.models`). -/
inductive TaskStatus where
  | scheduled
  | waiting
  | pending
  | running
  | succeeded
  | failed
  | tle
  | mle
  | deleting
deriving DecidableEq, Repr

/-- A pool pod as observed through the orchestrator: the pod named
`task-storage-...`, its `task` label, its numeric `occupied` label, its
phase and whether `metadata.deletion_timestamp` is set. -/
structure KPod where
  name : String
  task_label : String
  occupied : Nat
  phase : Phase
  deleting : Bool
deriving DecidableEq, Repr

/-- Small JSON value type for `container_config`. -/
inductive Json where
  | null
  | bool (b : Bool)
  | num (n : Int)
  | str (s : String)
  | arr (xs : List Json)
  | obj (kvs : List (String × Json))

/-- Dictionary lookup on a JSON object's key/value list. -/
def jlookup (kvs : List (String × Json)) (k : String) : Option Json :=
  match kvs with
  | [] => none
  | (k', v) :: rest => if k' = k then some v else jlookup rest k

/-- `config_checker(json_config)` from `executor.py`.  Returns `true` iff
the parsed config is a dict containing the keys `image`,
`persistent_volume` (itself a dict with `name` and `mount_path`),
`working_path`, `shell`, `memory_limit`, `commands` (a list),
`task_script_path`, `task_initial_file_path`.  Accessing `.keys()` on a
non-dict raises inside the checker's `try`, which returns `false`. -/
def config_checker : Json → Bool
  | Json.obj kvs =>
    (jlookup kvs "image").isSome &&
    (match jlookup kvs "persistent_volume" with
     | some (Json.obj pv) => (jlookup pv "name").isSome && (jlookup pv "mount_path").isSome
     | some _ => false
     | none => false) &&
    (jlookup kvs "working_path").isSome &&
    (jlookup kvs "shell").isSome &&
    (jlookup kvs "memory_limit").isSome &&
    (match jlookup kvs "commands" with
     | some (Json.arr _) => true
     | _ => false) &&
    (jlookup kvs "task_script_path").isSome &&
    (jlookup kvs "task_initial_file_path").isSome
  | _ => false

/-! ## Pool Reconciler (`TaskExecutor._ttl_check`) -/

/-- Result of the classification loop in `_ttl_check`: `base_count`,
`usable_count`, `idle_list` (in pod order) and `has_error`.  The Python
loop `break`s at the first terminal pod (phase Succeeded, Failed or
Unknown); pods after it are not classified, and the counts are unused in
that case. -/
def scanPods (max_sharing : Nat) : List KPod → Nat × Nat × List KPod × Bool
  | [] => (0, 0, [], false)
  | p :: rest =>
    if p.phase = Phase.succeeded ∨ p.phase = Phase.failed ∨ p.phase = Phase.unknown then
      (0, 0, [], true)
    else
      let (b, u, idle, err) := scanPods max_sharing rest
      if p.phase = Phase.running ∧ p.deleting = false then
        if p.occupied < max_sharing then
          (b + 1, u + 1, if p.occupied = 0 then p :: idle else idle, err)
        else
          (b + 1, u, idle, err)
      else if p.phase = Phase.pending then
        (b + 1, u + 1, idle, err)
      else
        (b, u, idle, err)

/-- Observable effects of one `_ttl_check` reconciliation pass (template
row present, namespace/PVC bootstrap succeeded, pod list succeeded). -/
structure TtlOutcome where
  /-- all pods of the template were deleted (`delete_all_containers`) -/
  purgedAll : Bool
  /-- `schedule.clear(uuid)` was called -/
  scheduleCleared : Bool
  /-- number of pods handed to `expand_container` in total -/
  created : Nat
  /-- number of idle pods handed to `delete_single_container` -/
  deletedIdle : Nat
deriving DecidableEq, Repr

/-- The reconciliation policy of `_ttl_check` after classification:
terminal pod detected → purge everything and clear the schedule;
otherwise the three policy steps.  In the source the three steps are
written as three separate `if` statements (only the shrink step carries
the `base_count > item.replica` guard), so the expansion steps are not
mutually exclusive. -/
def ttl_policy (replica max_sharing : Nat) (pods : List KPod) : TtlOutcome :=
  let s := scanPods max_sharing pods
  let base := s.1
  let usable := s.2.1
  let idle := s.2.2.1
  let hasError := s.2.2.2
  if hasError = true then
    { purgedAll := true, scheduleCleared := true, created := 0, deletedIdle := 0 }
  else
    let c1 := if base ≤ replica then replica - base else 0
    let c2 := if usable < 1 then base else 0
    let d := if base > replica ∧ idle.length > base / 2 then 1 else 0
    { purgedAll := false, scheduleCleared := false, created := c1 + c2, deletedIdle := d }

/-- `delete_single_container`: after the deletion request the pod is
relabelled `task=<uuid>_deleted`, `occupied=0` (its metadata is replaced
wholesale). -/
def relabel_deleted (uuid : String) (p : KPod) : KPod :=
  { p with task_label := uuid ++ "_deleted", occupied := 0 }

/-- `delete_all_containers`: every pod of the listed response is deleted
and relabelled. -/
def delete_all_containers (uuid : String) (pods : List KPod) : List KPod :=
  pods.map (relabel_deleted uuid)

/-- A pod is terminal in the sense of the classification loop. -/
def terminalPod (p : KPod) : Prop :=
  p.phase = Phase.succeeded ∨ p.phase = Phase.failed ∨ p.phase = Phase.unknown

instance (p : KPod) : Decidable (terminalPod p) := by
  unfold terminalPod; infer_instance

/-! ## Job Dispatcher (`TaskExecutor._job_dispatch`) -/

/-- Outcome of the `create_namespaced_job` call together with the other
operations inside the inner `try` of `_job_dispatch`: `ok` (no raise),
`apiError` (an `ApiException`, caught and logged, status untouched), or
`otherError` (any other exception from building or creating the job,
caught by the generic handler which fails the task). -/
inductive JobCreateRes where
  | ok
  | apiError
  | otherError
deriving DecidableEq, Repr

/-- Observable effects of one `_job_dispatch` iteration on a single
SCHEDULED task. -/
structure DispatchOutcome where
  status : TaskStatus
  /-- a Job object was submitted to the orchestrator -/
  jobCreated : Bool
  /-- the exception escaped to the outer handler: the whole pass aborts
  and remaining SCHEDULED tasks are not processed this pass -/
  passAborted : Bool
  /-- the `logs` message written to the row, if any -/
  logs : Option String
deriving DecidableEq, Repr

/-- One `_job_dispatch` iteration for a task currently in SCHEDULED.
`parsed` is the result of `json.loads(item.settings.container_config)`
(`none` = the string is not valid JSON and the call raises).  That call
sits before the inner `try`, so its exception reaches the outer handler:
the task keeps status SCHEDULED and the pass aborts.  `pvcOk` is
`get_userspace_pvc()`. -/
def job_dispatch_step (parsed : Option Json) (pvcOk : Bool)
    (createRes : JobCreateRes) : DispatchOutcome :=
  match parsed with
  | none => ⟨TaskStatus.scheduled, false, true, none⟩
  | some conf =>
    if pvcOk = false then
      ⟨TaskStatus.failed, false, false, some "Failed to get user space storage"⟩
    else if config_checker conf = false then
      -- `raise ValueError(...)` caught by the ValueError handler
      ⟨TaskStatus.failed, false, false, none⟩
    else
      match createRes with
      | JobCreateRes.ok => ⟨TaskStatus.waiting, true, false, none⟩
      | JobCreateRes.apiError => ⟨TaskStatus.scheduled, false, false, none⟩
      | JobCreateRes.otherError => ⟨TaskStatus.failed, false, false, none⟩

/-! ## Job Watcher (`TaskExecutor._job_monitor`) -/

/-- The phase → candidate status mapping of `_job_monitor` (before the
exit-code override): Running → RUNNING, Succeeded → SUCCEEDED, Pending
without a deletion timestamp → PENDING, Failed → FAILED, anything else
keeps the current status. -/
def monitor_new_status (cur : TaskStatus) (phase : Phase) (deleting : Bool) : TaskStatus :=
  if phase = Phase.running then TaskStatus.running
  else if phase = Phase.succeeded then TaskStatus.succeeded
  else if phase = Phase.pending ∧ deleting = false then TaskStatus.pending
  else if phase = Phase.failed then TaskStatus.failed
  else cur

/-- Options passed to `delete_namespaced_job`. -/
structure DeleteOpts where
  propagation : String
  grace : Nat
deriving DecidableEq, Repr

/-- Observable effects of one `_job_monitor` iteration on a single
watched task. -/
structure MonitorResult where
  status : TaskStatus
  logs : String
  logs_get : Bool
  exit_code : Option Int
  /-- name of the deleted Job and the options of the delete request, when
  `delete_namespaced_job` was called -/
  jobDelete : Option (String × DeleteOpts)
  /-- `item.save(force_update=True)` was called -/
  saved : Bool
deriving DecidableEq, Repr

/-- One `_job_monitor` iteration for the task with uuid `uuid` and
current status `cur` (selected from {WAITING, PENDING, RUNNING}), for
which the pod list `task-exec=<uuid>` is non-empty.  `phase`/`deleting`
describe the first listed pod; `exitCode` is the container's recorded
terminated exit code (`none` when no terminated state is present);
`podLog` is the result of `read_namespaced_pod_log` (Python truthiness:
the empty string leaves `item.logs` untouched, as does `exit_code` equal
to `None` or `0` for `item.exit_code`). -/
def job_monitor_step (uuid : String) (cur : TaskStatus) (curLogs : String)
    (curLogsGet : Bool) (curExit : Option Int) (phase : Phase) (deleting : Bool)
    (exitCode : Option Int) (podLog : String) : MonitorResult :=
  let common_name := "task-exec-" ++ uuid
  let ns := monitor_new_status cur phase deleting
  if ns ≠ cur then
    if phase = Phase.succeeded ∨ phase = Phase.failed then
      let logs1 := if podLog ≠ "" then podLog else curLogs
      let ec := if exitCode ≠ none ∧ exitCode ≠ some 0 then exitCode else curExit
      if exitCode = some 124 then
        ⟨TaskStatus.tle, logs1 ++ "\nTime limit exceeded when executing job.", true, ec,
          some (common_name, ⟨"Foreground", 3⟩), true⟩
      else if exitCode = some 137 then
        ⟨TaskStatus.mle, logs1 ++ "\nMemory limit exceeded when executing job.", true, ec,
          some (common_name, ⟨"Foreground", 3⟩), true⟩
      else
        ⟨ns, logs1, true, ec, some (common_name, ⟨"Foreground", 3⟩), true⟩
    else
      ⟨ns, curLogs, curLogsGet, curExit, none, true⟩
  else
    ⟨cur, curLogs, curLogsGet, curExit, none, false⟩

/-! ## Status selection predicates of the control loops -/

/-- The watcher's first query: `status ∈ {WAITING, RUNNING, PENDING}`. -/
def monitor_selects : TaskStatus → Bool
  | TaskStatus.waiting | TaskStatus.running | TaskStatus.pending => true
  | _ => false

/-- The watcher's second query: `status = DELETING` (row removal only). -/
def deleting_selects : TaskStatus → Bool
  | TaskStatus.deleting => true
  | _ => false

/-- The dispatcher's query: `status = SCHEDULED`. -/
def dispatch_selects : TaskStatus → Bool
  | TaskStatus.scheduled => true
  | _ => false

/-- Terminal task statuses. -/
def terminal_status : TaskStatus → Bool
  | TaskStatus.succeeded | TaskStatus.failed | TaskStatus.tle | TaskStatus.mle => true
  | _ => false

/-- Effect of one dispatcher pass on an arbitrary task's status: the
query selects only SCHEDULED tasks; any other row is untouched. -/
def dispatch_task_pass (s : TaskStatus) (parsed : Option Json) (pvcOk : Bool)
    (createRes : JobCreateRes) : TaskStatus :=
  if dispatch_selects s then (job_dispatch_step parsed pvcOk createRes).status else s

/-- Effect of one watcher pass on an arbitrary task's status: the first
query selects only WAITING/RUNNING/PENDING tasks; the DELETING query
removes rows without writing a status; any other row is untouched. -/
def monitor_task_pass (uuid : String) (s : TaskStatus) (curLogs : String)
    (curLogsGet : Bool) (curExit : Option Int) (phase : Phase) (deleting : Bool)
    (exitCode : Option Int) (podLog : String) : TaskStatus :=
  if monitor_selects s then
    (job_monitor_step uuid s curLogs curLogsGet curExit phase deleting exitCode podLog).status
  else s

/-! ## Reaper (`TaskExecutor._storage_pod_monitor`) -/

/-- A `TaskStorage` row as the reaper sees it. -/
structure TaskStorageRow where
  pod_name : String
  expire_time : Nat
deriving DecidableEq, Repr

/-- Result of `read_namespaced_pod` on the workspace pod. -/
inductive ReadRes where
  | found (p : KPod)
  | notFound
  | apiError
deriving DecidableEq, Repr

/-- The workspace pod after the pass. -/
inductive PodOutcome where
  /-- the row was not due, or the read raised a non-404 error: the pod
  was not contacted and its state is whatever it was -/
  | notRead
  /-- the pod was read; this is its state after the pass (patched with a
  decremented, 0-clamped `occupied` iff its phase was Running) -/
  | present (p : KPod)
  /-- the read returned 404 -/
  | absent
deriving DecidableEq, Repr

/-- One reaper iteration on a `TaskStorage` row (rows are selected with
`expire_time > 0`, then acted on when `expire_time ≤ now`).  For a due
row whose pod reads back Running, the pass execs
`unlink /home/<username>; userdel <username>` in the pod and patches
`occupied` to `max(occupied - 1, 0)`; in every non-error read outcome it
then clears the row (`pod_name = ''`, `expire_time = 0`). -/
def storage_reap_step (now : Nat) (row : TaskStorageRow) (read : ReadRes) :
    TaskStorageRow × PodOutcome :=
  if 0 < row.expire_time ∧ row.expire_time ≤ now then
    match read with
    | ReadRes.found p =>
      if p.phase = Phase.running then
        (⟨"", 0⟩, PodOutcome.present { p with occupied := p.occupied - 1 })
      else
        (⟨"", 0⟩, PodOutcome.present p)
    | ReadRes.notFound => (⟨"", 0⟩, PodOutcome.absent)
    | ReadRes.apiError => (row, PodOutcome.notRead)
  else
    (row, PodOutcome.notRead)

/-- A `TaskVNCPod` row as the reaper sees it. -/
structure TaskVNCPodRow where
  pod_name : String
  url_path : String
  expire_time : Nat
deriving DecidableEq, Repr

/-- Result of `delete_namespaced_deployment`. -/
inductive DeleteRes where
  | ok
  | notFound
  | apiError
deriving DecidableEq, Repr

/-- One reaper iteration on a `TaskVNCPod` row.  For a due row, the
deployment named by `pod_name` is deleted and the row cleared — but only
under the source's `if item.pod_name:` guard: a due row whose `pod_name`
is empty is not touched at all.  A 404 from the delete also clears the
row; any other `ApiException` leaves it unchanged. -/
def vnc_reap_step (now : Nat) (row : TaskVNCPodRow) (del : DeleteRes) : TaskVNCPodRow :=
  if 0 < row.expire_time ∧ row.expire_time ≤ now then
    if row.pod_name ≠ "" then
      match del with
      | DeleteRes.ok => ⟨"", "", 0⟩
      | DeleteRes.notFound => ⟨"", "", 0⟩
      | DeleteRes.apiError => row
    else row
  else row

/-- A VNC workspace row is released. -/
def vncReleased (r : TaskVNCPodRow) : Prop :=
  r.pod_name = "" ∧ r.url_path = "" ∧ r.expire_time = 0

instance (r : TaskVNCPodRow) : Decidable (vncReleased r) := by
  unfold vncReleased; infer_instance

/-! ## Lease Manager (`TaskExecutor.get_user_space_pod`) -/

/-- Result of `read_namespaced_pod` on the pod already referenced by the
Workspace row. -/
inductive LeaseReadRes where
  | found (phase : Phase) (deleting : Bool)
  | notFound
  | apiError
deriving DecidableEq, Repr

/-- Observable effects of one `get_user_space_pod` call. -/
structure LeaseOutcome where
  /-- the returned pod's name (`None` in Python is `none`) -/
  result : Option String
  /-- the Workspace row as persisted when the call returns -/
  row : TaskStorageRow
  /-- pod name and new `occupied` value committed by
  `patch_namespaced_pod` during allocation, if the patch happened -/
  patched : Option (String × Nat)
deriving DecidableEq, Repr

/-- Step 3 of the lease algorithm: the first pod of the pool listing with
phase Running, `occupied < max_sharing_users` and no deletion
timestamp. -/
def first_available (max_sharing : Nat) : List KPod → Option KPod
  | [] => none
  | p :: rest =>
    if p.phase = Phase.running ∧ p.occupied < max_sharing ∧ p.deleting = false then
      some p
    else first_available max_sharing rest

/-- `get_user_space_pod(uuid, user, recreate, purge)` for an existing
template.  Inputs: `row` is the Workspace row from `get_or_create` and
`created` its freshness flag; `readRes` the read of `row.pod_name`
(irrelevant when `row.pod_name = ""`, since no read is attempted);
`configParses` whether `json.loads(setting.container_config)` succeeds;
`pool` the pods listed under `task=<uuid>`; `execOk`, `recreateOk`,
`patchOk` whether the provisioning exec, the `_recreate_space` exec and
the label patch run without raising.  Control flow from the source:
a non-404 `ApiException` on the reuse read raises
`Exception("Unhandled ApiException")`, caught by the outer handler, and
`finally: return result` returns `None`; a Running, non-deleting reuse
pod refreshes and saves the row before `json.loads`, so it is returned
even if the config is invalid; during allocation any exception before
the final save leaves the row unsaved and `result` at `None`. -/
def get_user_space_pod (now timeout max_sharing : Nat) (row : TaskStorageRow)
    (created : Bool) (readRes : LeaseReadRes) (configParses : Bool)
    (pool : List KPod) (recreate : Bool) (execOk recreateOk patchOk : Bool) :
    LeaseOutcome :=
  if row.pod_name ≠ "" ∧ readRes = LeaseReadRes.apiError then
    ⟨none, row, none⟩
  else if row.pod_name ≠ "" ∧ readRes = LeaseReadRes.found Phase.running false then
    ⟨some row.pod_name, ⟨row.pod_name, now + timeout⟩, none⟩
  else if configParses = false then
    ⟨none, row, none⟩
  else
    match first_available max_sharing pool with
    | none => ⟨none, row, none⟩
    | some p =>
      if execOk = false then ⟨none, row, none⟩
      else if (created ∨ recreate) ∧ recreateOk = false then ⟨none, row, none⟩
      else if patchOk = false then ⟨none, row, none⟩
      else ⟨some p.name, ⟨p.name, now + timeout⟩, some (p.name, p.occupied + 1)⟩

end CloudScheduler

/-! # Theorems settling the claims -/

namespace CloudScheduler

/-- Helper: the classification loop of `_ttl_check` reports `has_error`
whenever some listed pod is terminal. -/
lemma scanPods_error_of_terminal (max_sharing : Nat) (pods : List KPod)
    (h : ∃ p ∈ pods, terminalPod p) : (scanPods max_sharing pods).2.2.2 = true := by
  induction pods with
  | nil => simp at h
  | cons p rest ih =>
    obtain ⟨q, hq, hterm⟩ := h
    unfold scanPods
    by_cases hp : p.phase = Phase.succeeded ∨ p.phase = Phase.failed ∨ p.phase = Phase.unknown
    · simp [hp]
    · have hqrest : q ∈ rest := by
        rcases List.mem_cons.mp hq with h1 | h1
        · exact absurd (h1 ▸ hterm) hp
        · exact h1
      have := ih ⟨q, hqrest, hterm⟩
      simp only [hp, if_false]
      split <;> split <;> simp_all

/-- Helper: the status written by one watcher iteration, as a case split
on the candidate status and the exit-code override. -/
lemma job_monitor_status_spec (uuid : String) (cur : TaskStatus) (curLogs : String)
    (g : Bool) (ce : Option Int) (phase : Phase) (deleting : Bool) (ec : Option Int)
    (podLog : String) :
    (job_monitor_step uuid cur curLogs g ce phase deleting ec podLog).status =
      if monitor_new_status cur phase deleting = cur then cur
      else if phase = Phase.succeeded ∨ phase = Phase.failed then
        if ec = some 124 then TaskStatus.tle
        else if ec = some 137 then TaskStatus.mle
        else monitor_new_status cur phase deleting
      else monitor_new_status cur phase deleting := by
  by_cases h1 : monitor_new_status cur phase deleting = cur
  · simp [job_monitor_step, h1]
  · by_cases h2 : phase = Phase.succeeded ∨ phase = Phase.failed
    · by_cases h3 : ec = some 124
      · simp [job_monitor_step, h1, h2, h3]
      · by_cases h4 : ec = some 137 <;> simp [job_monitor_step, h1, h2, h3, h4]
    · simp [job_monitor_step, h1, h2]

/-- Helper: the phase → status map of the watcher never yields WAITING
for a task that is not already in WAITING. -/
lemma monitor_new_status_ne_waiting (cur : TaskStatus) (phase : Phase) (deleting : Bool)
    (h : cur ≠ TaskStatus.waiting) :
    monitor_new_status cur phase deleting ≠ TaskStatus.waiting := by
  unfold monitor_new_status
  split_ifs <;> simp_all

/-- Claim C1, counterexample: a SCHEDULED task whose `container_config`
is not valid JSON is NOT set to FAILED by a dispatcher pass — the
`json.loads` call sits before the inner `try`, so the exception reaches
the outer handler: the task stays SCHEDULED, no Job is created, and the
pass aborts.  This refutes the claim's "non-JSON is surfaced as FAILED"
case. -/
theorem job_dispatch_nonjson_not_failed :
    (job_dispatch_step none true JobCreateRes.ok).status = TaskStatus.scheduled ∧
    (job_dispatch_step none true JobCreateRes.ok).status ≠ TaskStatus.failed ∧
    (job_dispatch_step none true JobCreateRes.ok).jobCreated = false ∧
    (job_dispatch_step none true JobCreateRes.ok).passAborted = true := by decide

/-- Claim C1, amended: for a SCHEDULED task whose template config parses
as JSON but fails `config_checker` (missing required keys or wrong
shapes), one dispatcher pass sets the task to FAILED and creates no Job;
for a config that is not valid JSON, the pass aborts with the task left
in SCHEDULED and no Job created. -/
theorem job_dispatch_invalid_config (conf : Json) (h : config_checker conf = false)
    (pvcOk : Bool) (createRes : JobCreateRes) :
    ((job_dispatch_step (some conf) pvcOk createRes).status = TaskStatus.failed ∧
     (job_dispatch_step (some conf) pvcOk createRes).jobCreated = false) ∧
    (∀ (pvc : Bool) (cr : JobCreateRes),
      (job_dispatch_step none pvc cr).status = TaskStatus.scheduled ∧
      (job_dispatch_step none pvc cr).jobCreated = false ∧
      (job_dispatch_step none pvc cr).passAborted = true) := by
  constructor
  · cases pvcOk <;> simp [job_dispatch_step, h]
  · intro pvc cr
    simp [job_dispatch_step]

/-- Witness for `job_dispatch_invalid_config` at the empty JSON object. -/
theorem job_dispatch_invalid_config_witness :
    ((job_dispatch_step (some (Json.obj [])) true JobCreateRes.ok).status = TaskStatus.failed ∧
     (job_dispatch_step (some (Json.obj [])) true JobCreateRes.ok).jobCreated = false) ∧
    (∀ (pvc : Bool) (cr : JobCreateRes),
      (job_dispatch_step none pvc cr).status = TaskStatus.scheduled ∧
      (job_dispatch_step none pvc cr).jobCreated = false ∧
      (job_dispatch_step none pvc cr).passAborted = true) :=
  job_dispatch_invalid_config (Json.obj []) (by decide) true JobCreateRes.ok

/-- Claim C2, counterexample: with `replica = 1`, `max_sharing_users = 1`
and one Running pod with `occupied = 1`, the classification yields
`base = replica = 1` and `usable = 0`, yet the pass creates 1 pod (the
doubling step), not zero: the expansion steps are independent `if`s, not
short-circuiting `elif`s. -/
theorem ttl_policy_not_short_circuit :
    scanPods 1 [⟨"p", "t", 1, Phase.running, false⟩] = (1, 0, [], false) ∧
    (ttl_policy 1 1 [⟨"p", "t", 1, Phase.running, false⟩]).created = 1 := by decide

/-- Claim C2, amended: in a pass with no terminal pod the two expansion
steps are both applied — the pass creates
`(if base ≤ replica then replica − base else 0) + (if usable < 1 then base else 0)`
pods; in particular a pass with `base = replica` and `usable = 0`
creates `base` pods (zero only when the pool is empty). -/
theorem ttl_policy_created_count (replica max_sharing : Nat) (pods : List KPod)
    (base usable : Nat) (idle : List KPod)
    (h : scanPods max_sharing pods = (base, usable, idle, false)) :
    (ttl_policy replica max_sharing pods).created =
      (if base ≤ replica then replica - base else 0) +
      (if usable < 1 then base else 0) ∧
    (ttl_policy replica max_sharing pods).purgedAll = false ∧
    (base = replica → usable = 0 → (ttl_policy replica max_sharing pods).created = base) := by
  refine ⟨?_, ?_, ?_⟩ <;> simp [ttl_policy, h]
  intro hb hu
  simp [hb, hu]

/-- Witness for `ttl_policy_created_count` on a one-pod exhausted pool. -/
theorem ttl_policy_created_count_witness :
    ((ttl_policy 1 1 [⟨"p", "t", 1, Phase.running, false⟩]).created =
      (if 1 ≤ 1 then 1 - 1 else 0) + (if 0 < 1 then 1 else 0) ∧
    (ttl_policy 1 1 [⟨"p", "t", 1, Phase.running, false⟩]).purgedAll = false ∧
    (1 = 1 → 0 = 0 → (ttl_policy 1 1 [⟨"p", "t", 1, Phase.running, false⟩]).created = 1)) :=
  ttl_policy_created_count 1 1 _ 1 0 [] (by decide)

/-- Claim C3, counterexample: a due Workspace row whose pod reads back
Running with `occupied = 0` ends the pass with the pod still present and
`occupied` still 0 — the decrement is clamped at 0, so the label is not
strictly less than before. -/
theorem storage_reap_occupied_zero_clamped :
    storage_reap_step 10 ⟨"pod", 5⟩ (ReadRes.found ⟨"pod", "t", 0, Phase.running, false⟩) =
      (⟨"", 0⟩, PodOutcome.present ⟨"pod", "t", 0, Phase.running, false⟩) := by decide

/-- Claim C3, amended: after the Reaper processes a due Workspace row,
if the pod was read back Running its `occupied` label becomes
`occupied − 1` clamped at 0 — strictly less than before exactly when it
was positive; a pod read back in any other phase keeps its label; a 404
means the pod is absent; in all read-success cases the row is cleared. -/
theorem storage_reap_occupied (now : Nat) (row : TaskStorageRow) (p : KPod)
    (hdue : 0 < row.expire_time ∧ row.expire_time ≤ now) :
    (p.phase = Phase.running →
      storage_reap_step now row (ReadRes.found p) =
        (⟨"", 0⟩, PodOutcome.present { p with occupied := p.occupied - 1 }) ∧
      (0 < p.occupied → p.occupied - 1 < p.occupied)) ∧
    (p.phase ≠ Phase.running →
      storage_reap_step now row (ReadRes.found p) = (⟨"", 0⟩, PodOutcome.present p)) ∧
    storage_reap_step now row ReadRes.notFound = (⟨"", 0⟩, PodOutcome.absent) := by
  refine ⟨fun hrun => ⟨?_, fun hpos => Nat.sub_lt hpos Nat.one_pos⟩,
          fun hnotrun => ?_, ?_⟩ <;>
    simp [storage_reap_step, hdue] <;> simp_all

/-- Witness for `storage_reap_occupied` on a Running pod with
`occupied = 2`. -/
theorem storage_reap_occupied_witness :
    (storage_reap_step 10 ⟨"pod", 5⟩ (ReadRes.found ⟨"pod", "t", 2, Phase.running, false⟩) =
      (⟨"", 0⟩, PodOutcome.present ⟨"pod", "t", 1, Phase.running, false⟩)) ∧ (1 : Nat) < 2 := by
  have h := storage_reap_occupied 10 ⟨"pod", 5⟩ ⟨"pod", "t", 2, Phase.running, false⟩
    (by decide)
  exact ⟨(h.1 rfl).1, (h.1 rfl).2 (by decide)⟩

/-- Claim C4, counterexample: a task in RUNNING whose pod is observed in
phase Pending with no deletion timestamp is written back to PENDING by
the watcher — a backward move through the state machine. -/
theorem job_monitor_running_to_pending :
    (job_monitor_step "u" TaskStatus.running "" false none Phase.pending false none "").status =
      TaskStatus.pending ∧
    (job_monitor_step "u" TaskStatus.running "" false none Phase.pending false none "").saved =
      true := by decide

/-- Claim C4, amended: the watcher never moves a task back to WAITING
(no pod phase maps to it), and a RUNNING task is set back to PENDING
exactly when the observed phase is Pending with no deletion timestamp;
in particular a PENDING task is never set back to WAITING. -/
theorem job_monitor_no_backward_to_waiting (uuid : String) (cur : TaskStatus)
    (curLogs : String) (g : Bool) (ce : Option Int) (phase : Phase) (deleting : Bool)
    (ec : Option Int) (podLog : String) (h : cur ≠ TaskStatus.waiting) :
    (job_monitor_step uuid cur curLogs g ce phase deleting ec podLog).status ≠
      TaskStatus.waiting ∧
    ((job_monitor_step uuid TaskStatus.running curLogs g ce phase deleting ec podLog).status =
        TaskStatus.pending ↔ phase = Phase.pending ∧ deleting = false) := by
  constructor
  · rw [job_monitor_status_spec]
    have hm := monitor_new_status_ne_waiting cur phase deleting h
    split_ifs <;> simp_all
  · rw [job_monitor_status_spec]
    cases phase <;> cases deleting <;> simp [monitor_new_status] <;> split_ifs <;> simp_all

/-- Witness for `job_monitor_no_backward_to_waiting` at the RUNNING →
PENDING instance. -/
theorem job_monitor_no_backward_to_waiting_witness :
    ((job_monitor_step "u" TaskStatus.running "" false none Phase.pending false none "").status ≠
      TaskStatus.waiting ∧
    ((job_monitor_step "u" TaskStatus.running "" false none Phase.pending false none "").status =
        TaskStatus.pending ↔ Phase.pending = Phase.pending ∧ false = false)) :=
  job_monitor_no_backward_to_waiting "u" TaskStatus.running "" false none Phase.pending
    false none "" (by decide)

/-- Claim C5: for a watched task (status in {WAITING, PENDING, RUNNING})
whose pod reached phase Failed with a recorded terminated exit code:
exit 124 yields TLE with the time-limit message appended to the
harvested logs, exit 137 yields MLE with the memory-limit message, any
other exit code yields FAILED; and in these terminal cases — as in the
Succeeded case — the Job `task-exec-<uuid>` is deleted with Foreground
propagation and a 3-second grace period. -/
theorem job_monitor_exit_codes (uuid : String) (cur : TaskStatus) (curLogs podLog : String)
    (g : Bool) (ce ec : Option Int) (c : Int) (deleting : Bool)
    (h : monitor_selects cur = true) :
    (job_monitor_step uuid cur curLogs g ce Phase.failed deleting (some 124) podLog =
      ⟨TaskStatus.tle,
        (if podLog ≠ "" then podLog else curLogs) ++ "\nTime limit exceeded when executing job.",
        true, some 124, some ("task-exec-" ++ uuid, ⟨"Foreground", 3⟩), true⟩) ∧
    (job_monitor_step uuid cur curLogs g ce Phase.failed deleting (some 137) podLog =
      ⟨TaskStatus.mle,
        (if podLog ≠ "" then podLog else curLogs) ++ "\nMemory limit exceeded when executing job.",
        true, some 137, some ("task-exec-" ++ uuid, ⟨"Foreground", 3⟩), true⟩) ∧
    (c ≠ 124 → c ≠ 137 →
      (job_monitor_step uuid cur curLogs g ce Phase.failed deleting (some c) podLog).status =
        TaskStatus.failed ∧
      (job_monitor_step uuid cur curLogs g ce Phase.failed deleting (some c) podLog).jobDelete =
        some ("task-exec-" ++ uuid, ⟨"Foreground", 3⟩)) ∧
    ((job_monitor_step uuid cur curLogs g ce Phase.succeeded deleting ec podLog).jobDelete =
      some ("task-exec-" ++ uuid, ⟨"Foreground", 3⟩)) := by
  have hcur : cur = TaskStatus.waiting ∨ cur = TaskStatus.pending ∨
      cur = TaskStatus.running := by
    cases cur <;> simp_all [monitor_selects]
  refine ⟨?_, ?_, ?_, ?_⟩
  · rcases hcur with h' | h' | h' <;> subst h' <;>
      simp [job_monitor_step, monitor_new_status]
  · rcases hcur with h' | h' | h' <;> subst h' <;>
      simp [job_monitor_step, monitor_new_status]
  · intro h124 h137
    rcases hcur with h' | h' | h' <;> subst h' <;>
      simp [job_monitor_step, monitor_new_status, h124, h137]
  · rcases hcur with h' | h' | h' <;> subst h' <;>
      simp [job_monitor_step, monitor_new_status] <;> split_ifs <;> rfl

/-- Witness for `job_monitor_exit_codes` on a RUNNING task. -/
theorem job_monitor_exit_codes_witness :
    (job_monitor_step "u" TaskStatus.running "base" false none Phase.failed false
        (some 124) "log" =
      ⟨TaskStatus.tle,
        (if ("log" : String) ≠ "" then "log" else "base") ++
          "\nTime limit exceeded when executing job.",
        true, some 124, some ("task-exec-" ++ "u", ⟨"Foreground", 3⟩), true⟩) ∧
    (job_monitor_step "u" TaskStatus.running "base" false none Phase.failed false
        (some 137) "log" =
      ⟨TaskStatus.mle,
        (if ("log" : String) ≠ "" then "log" else "base") ++
          "\nMemory limit exceeded when executing job.",
        true, some 137, some ("task-exec-" ++ "u", ⟨"Foreground", 3⟩), true⟩) ∧
    ((1 : Int) ≠ 124 → (1 : Int) ≠ 137 →
      (job_monitor_step "u" TaskStatus.running "base" false none Phase.failed false
          (some 1) "log").status = TaskStatus.failed ∧
      (job_monitor_step "u" TaskStatus.running "base" false none Phase.failed false
          (some 1) "log").jobDelete = some ("task-exec-" ++ "u", ⟨"Foreground", 3⟩)) ∧
    ((job_monitor_step "u" TaskStatus.running "base" false none Phase.succeeded false
        none "log").jobDelete = some ("task-exec-" ++ "u", ⟨"Foreground", 3⟩)) :=
  job_monitor_exit_codes "u" TaskStatus.running "base" "log" false none none 1 false rfl

/-- Claim C6: if any listed pod of the template is terminal (phase
Succeeded, Failed or Unknown), the reconciliation pass purges every pod
of the template — each relabelled `task=<uuid>_deleted` with
`occupied=0` after the deletion request — cancels the template's
periodic schedule, and returns without creating or shrinking any
pods. -/
theorem ttl_terminal_purges (replica max_sharing : Nat) (uuid : String)
    (pods : List KPod) (p : KPod) (hp : p ∈ pods) (hterm : terminalPod p) :
    ttl_policy replica max_sharing pods =
      { purgedAll := true, scheduleCleared := true, created := 0, deletedIdle := 0 } ∧
    ∀ q ∈ delete_all_containers uuid pods,
      q.task_label = uuid ++ "_deleted" ∧ q.occupied = 0 := by
  constructor
  · have herr := scanPods_error_of_terminal max_sharing pods ⟨p, hp, hterm⟩
    simp [ttl_policy, herr]
  · intro q hq
    simp only [delete_all_containers, List.mem_map] at hq
    obtain ⟨r, _, hr⟩ := hq
    subst hr
    exact ⟨rfl, rfl⟩

/-- Witness for `ttl_terminal_purges` on a two-pod pool with one Failed
pod. -/
theorem ttl_terminal_purges_witness :
    ttl_policy 2 3 [⟨"a", "t", 0, Phase.running, false⟩, ⟨"b", "t", 0, Phase.failed, false⟩] =
      { purgedAll := true, scheduleCleared := true, created := 0, deletedIdle := 0 } ∧
    ∀ q ∈ delete_all_containers "t"
        [⟨"a", "t", 0, Phase.running, false⟩, ⟨"b", "t", 0, Phase.failed, false⟩],
      q.task_label = "t" ++ "_deleted" ∧ q.occupied = 0 :=
  ttl_terminal_purges 2 3 "t" _ ⟨"b", "t", 0, Phase.failed, false⟩ (by decide)
    (by decide)

/-- Claim C7: when the Workspace row already references a pod, a read
that finds it Running with no deletion timestamp refreshes
`expire_time = now + USER_SPACE_POD_TIMEOUT`, saves the row, and returns
that pod without allocating from the pool; a 404 falls through to fresh
allocation (here shown succeeding on the first available pool pod, with
its `occupied` label incremented and committed); any other orchestrator
error is a hard failure returning `none` with the row unchanged and
nothing leased. -/
theorem lease_existing_pod (now timeout ms : Nat) (row : TaskStorageRow) (created : Bool)
    (configParses : Bool) (pool : List KPod) (recreate execOk recreateOk patchOk : Bool)
    (p : KPod) (hname : row.pod_name ≠ "")
    (hp : first_available ms pool = some p) :
    (get_user_space_pod now timeout ms row created (LeaseReadRes.found Phase.running false)
        configParses pool recreate execOk recreateOk patchOk =
      ⟨some row.pod_name, ⟨row.pod_name, now + timeout⟩, none⟩) ∧
    (get_user_space_pod now timeout ms row created LeaseReadRes.apiError
        configParses pool recreate execOk recreateOk patchOk = ⟨none, row, none⟩) ∧
    (get_user_space_pod now timeout ms row created LeaseReadRes.notFound
        true pool recreate true true true =
      ⟨some p.name, ⟨p.name, now + timeout⟩, some (p.name, p.occupied + 1)⟩) := by
  refine ⟨?_, ?_, ?_⟩ <;> simp [get_user_space_pod, hname, hp]

/-- Witness for `lease_existing_pod` with an existing row naming
`mypod` and a pool holding one free pod `q`. -/
theorem lease_existing_pod_witness :
    (get_user_space_pod 100 50 3 ⟨"mypod", 7⟩ false (LeaseReadRes.found Phase.running false)
        true [⟨"q", "t", 0, Phase.running, false⟩] false true true true =
      ⟨some "mypod", ⟨"mypod", 100 + 50⟩, none⟩) ∧
    (get_user_space_pod 100 50 3 ⟨"mypod", 7⟩ false LeaseReadRes.apiError
        true [⟨"q", "t", 0, Phase.running, false⟩] false true true true =
      ⟨none, ⟨"mypod", 7⟩, none⟩) ∧
    (get_user_space_pod 100 50 3 ⟨"mypod", 7⟩ false LeaseReadRes.notFound
        true [⟨"q", "t", 0, Phase.running, false⟩] false true true true =
      ⟨some "q", ⟨"q", 100 + 50⟩, some ("q", 0 + 1)⟩) :=
  lease_existing_pod 100 50 3 ⟨"mypod", 7⟩ false true [⟨"q", "t", 0, Phase.running, false⟩]
    false true true true ⟨"q", "t", 0, Phase.running, false⟩ (by decide) (by decide)

/-- Claim C8, counterexample: a due VNCWorkspace row whose `pod_name` is
already empty is not touched by the Reaper at all (the source's
`if item.pod_name:` guard), so it does not end the pass released — its
`expire_time` stays positive. -/
theorem vnc_reap_empty_pod_name_stuck :
    vnc_reap_step 10 ⟨"", "", 5⟩ DeleteRes.ok = ⟨"", "", 5⟩ ∧
    ¬ vncReleased (vnc_reap_step 10 ⟨"", "", 5⟩ DeleteRes.ok) := by decide

/-- Claim C8, amended: a due VNCWorkspace row with a nonempty `pod_name`
ends the pass released (pod_name = '', url_path = '', expire_time = 0)
when the Deployment delete succeeds or returns 404; a due row with an
empty `pod_name` is left entirely unchanged. -/
theorem vnc_reap_release (now : Nat) (row : TaskVNCPodRow)
    (hdue : 0 < row.expire_time ∧ row.expire_time ≤ now) :
    (row.pod_name ≠ "" →
      vnc_reap_step now row DeleteRes.ok = ⟨"", "", 0⟩ ∧
      vnc_reap_step now row DeleteRes.notFound = ⟨"", "", 0⟩ ∧
      vncReleased (vnc_reap_step now row DeleteRes.ok)) ∧
    (row.pod_name = "" → ∀ d, vnc_reap_step now row d = row) := by
  constructor
  · intro hname
    refine ⟨?_, ?_, ?_⟩ <;> simp [vnc_reap_step, hdue, hname, vncReleased]
  · intro hname d
    simp [vnc_reap_step, hdue, hname]

/-- Witness for `vnc_reap_release` on a due row backing deployment
`dep`. -/
theorem vnc_reap_release_witness :
    ((("dep" : String) ≠ "" →
      vnc_reap_step 10 ⟨"dep", "u", 5⟩ DeleteRes.ok = ⟨"", "", 0⟩ ∧
      vnc_reap_step 10 ⟨"dep", "u", 5⟩ DeleteRes.notFound = ⟨"", "", 0⟩ ∧
      vncReleased (vnc_reap_step 10 ⟨"dep", "u", 5⟩ DeleteRes.ok)) ∧
    (("dep" : String) = "" → ∀ d, vnc_reap_step 10 ⟨"dep", "u", 5⟩ d = ⟨"dep", "u", 5⟩)) :=
  vnc_reap_release 10 ⟨"dep", "u", 5⟩ (by decide)

/-- Claim C9: a Task in a terminal status (SUCCEEDED, FAILED, TLE, MLE)
is selected by none of the controller queries — the watcher's active
query, the watcher's DELETING query, or the dispatcher's SCHEDULED
query — and consequently a dispatcher pass and a watcher pass leave its
status unchanged, whatever the orchestrator reports. -/
theorem terminal_status_sticky (s : TaskStatus) (h : terminal_status s = true)
    (parsed : Option Json) (pvcOk : Bool) (cr : JobCreateRes) (uuid curLogs podLog : String)
    (g : Bool) (ce ec : Option Int) (phase : Phase) (deleting : Bool) :
    dispatch_task_pass s parsed pvcOk cr = s ∧
    monitor_task_pass uuid s curLogs g ce phase deleting ec podLog = s ∧
    monitor_selects s = false ∧ dispatch_selects s = false ∧ deleting_selects s = false := by
  cases s <;> simp_all [terminal_status, dispatch_task_pass, monitor_task_pass,
    monitor_selects, dispatch_selects, deleting_selects]

/-- Witness for `terminal_status_sticky` at SUCCEEDED. -/
theorem terminal_status_sticky_witness :
    dispatch_task_pass TaskStatus.succeeded none true JobCreateRes.ok = TaskStatus.succeeded ∧
    monitor_task_pass "u" TaskStatus.succeeded "" false none Phase.running false none "" =
      TaskStatus.succeeded ∧
    monitor_selects TaskStatus.succeeded = false ∧
    dispatch_selects TaskStatus.succeeded = false ∧
    deleting_selects TaskStatus.succeeded = false :=
  terminal_status_sticky TaskStatus.succeeded rfl none true JobCreateRes.ok "u" "" ""
    false none none Phase.running false

/-- Claim C10: allocation in `get_user_space_pod` is atomic with respect
to the Workspace row — on a call that does not reuse an existing pod
(fresh row, or a 404 on the referenced pod), if the provisioning exec or
the `occupied` label patch raises, the call returns `none`, the row is
not persisted with a pod name or expire time, and no patch is committed.
(The `finally: return result` of the source means no exception
propagates; the model is total over all error inputs.) -/
theorem lease_alloc_atomic (now timeout ms : Nat) (row : TaskStorageRow) (created : Bool)
    (readRes : LeaseReadRes) (configParses : Bool) (pool : List KPod)
    (recreate recreateOk : Bool) (execOk patchOk : Bool)
    (hfresh : row.pod_name = "" ∨ readRes = LeaseReadRes.notFound)
    (hfail : execOk = false ∨ patchOk = false) :
    get_user_space_pod now timeout ms row created readRes configParses pool recreate
        execOk recreateOk patchOk = ⟨none, row, none⟩ := by
  have h1 : ¬ (row.pod_name ≠ "" ∧ readRes = LeaseReadRes.apiError) := by
    rcases hfresh with h | h <;> simp [h]
  have h2 : ¬ (row.pod_name ≠ "" ∧ readRes = LeaseReadRes.found Phase.running false) := by
    rcases hfresh with h | h <;> simp [h]
  unfold get_user_space_pod
  rw [if_neg h1, if_neg h2]
  by_cases hc : configParses = false
  · rw [if_pos hc]
  · rw [if_neg hc]
    cases hfa : first_available ms pool with
    | none => rfl
    | some p =>
      rcases hfail with h | h <;> subst h <;> split_ifs <;> simp_all

/-- Witness for `lease_alloc_atomic`: a fresh row, a free pool pod, and
a failing label patch. -/
theorem lease_alloc_atomic_witness :
    get_user_space_pod 100 50 3 ⟨"", 0⟩ true LeaseReadRes.notFound true
        [⟨"q", "t", 0, Phase.running, false⟩] false true true false =
      ⟨none, ⟨"", 0⟩, none⟩ :=
  lease_alloc_atomic 100 50 3 ⟨"", 0⟩ true LeaseReadRes.notFound true
    [⟨"q", "t", 0, Phase.running, false⟩] false true true false (Or.inl rfl) (Or.inr rfl)

end CloudScheduler
